import Mathlib

/-
  Verification development for dg-psbmon (src/main.go).
  Shallow embedding of the poll / dedupe / deliver pipeline:
  the fetch retry loop with its response handling (getDaily),
  the dedup ledger operations (checkID, addID), the forward step (send),
  and the per-tick candidate loop of main.
  External effects (HTTP attempt outcomes, database I/O faults, delivery
  transport failures) are supplied by explicit oracles; the control flow and
  state transitions are translated from the Go source.
-/

namespace Psbmon

/-- Embeds the `ID` struct (main.go lines 34-38): one paste entry with
fields `id`, `tags`, `date`. -/
structure ID where
  id : String
  tags : String
  date : Int
deriving DecidableEq, Repr

/-- Outcome of deserializing a response body as `[][]ID`
(main.go line 144, `json.Unmarshal(body, &tempSlice)`):
either the body fails to deserialize, or it yields the outer slice. -/
inductive JsonBody where
  | malformed
  | wellFormed (outer : List (List ID))
deriving DecidableEq, Repr

/-- The parts of an `*http.Response` that getDaily inspects:
the status code and the body. -/
structure HttpResponse where
  statusCode : Nat
  body : JsonBody
deriving DecidableEq, Repr

/-- Outcome of one `client.Do(req)` call (main.go line 122): either a
transport-level error (response is nil) or a response. -/
inductive Attempt where
  | transportErr (msg : String)
  | response (r : HttpResponse)
deriving DecidableEq, Repr

/-- State of the retry loop of getDaily: the current values of the Go
variables `res` and `err`, plus how many `client.Do` calls were made. -/
structure RetryState where
  res : Option HttpResponse
  err : Option String
  calls : Nat
deriving DecidableEq, Repr

/-- Embeds the retry loop of getDaily (main.go lines 119-132).
`atts n` is the outcome of the n-th `client.Do` call. The fuel argument is
`3 - retries`; each failing attempt (transport error or 502 status)
increments `retries`, any other outcome breaks the loop. On a transport
error `client.Do` returns a nil response, so `res` is overwritten with
`none`; on a 502 the response is kept and `err` is nil. -/
def retryLoopAux (atts : Nat → Attempt) : Nat → RetryState → RetryState
  | 0, s => s
  | fuel + 1, s =>
    match atts s.calls with
    | .transportErr m =>
        -- log "Encountered error sending HTTP request"; retries++
        retryLoopAux atts fuel ⟨none, some m, s.calls + 1⟩
    | .response r =>
        if r.statusCode = 502 then
          -- log "Encountered 502 error"; retries++
          retryLoopAux atts fuel ⟨some r, none, s.calls + 1⟩
        else
          ⟨some r, none, s.calls + 1⟩

/-- The retry loop entered with `retries := 0`, `res` and `err` nil. -/
def retryLoop (atts : Nat → Attempt) : RetryState :=
  retryLoopAux atts 3 ⟨none, none, 0⟩

/-- Result of a getDaily call. The two panic constructors record the runtime
faults the Go code can hit after the retry loop: dereferencing `res` when it
is nil (lines 133-135), and indexing `tempSlice[0]` when the outer slice is
empty (line 152). -/
inductive FetchResult where
  | ok (data : List ID)
  | fetchErr (msg : String)
  | panicNilRes
  | panicIndex
deriving DecidableEq, Repr

/-- Embeds the copy loop of getDaily (main.go lines 151-154):
`for i := range tempSlice[0] { p.Data = append(p.Data, tempSlice[0][i]) }`,
appending the elements of the inner slice in order. -/
def copyInner (inner : List ID) : List ID :=
  inner.foldl (fun acc x => acc ++ [x]) []

/-- Embeds getDaily (main.go lines 95-158) after request construction
(the URL, date parameters and headers are constant I/O glue). Runs the retry
loop, then the post-loop body handling: close and read `res.Body`
(nil dereference when every attempt was a transport failure), deserialize as
`[][]ID` (a failure is returned as an error), then unwrap `tempSlice[0]`
(index out of range when the outer slice is empty). -/
def getDaily (atts : Nat → Attempt) : FetchResult :=
  let s := retryLoop atts
  match s.res with
  | none => .panicNilRes
  | some r =>
    match r.body with
    | .malformed => .fetchErr "json unmarshal failure"
    | .wellFormed outer =>
      match outer with
      | [] => .panicIndex
      | inner :: _ => .ok (copyInner inner)

/-- The ledger state: the `paste_ID` column of the `pastes` table, in row
order. The generated `id` column is the row position. -/
structure DB where
  rows : List String
deriving DecidableEq, Repr

/-- The sqlite error text that addID's caller compares against
(main.go lines 280 and 283). -/
def uniqueErrMsg : String := "UNIQUE constraint failed: pastes.paste_ID"

/-- Embeds the `SELECT id FROM pastes WHERE paste_ID=?` row scan of checkID
(main.go lines 188-192): the generated row id when a row matches, otherwise
`sql.ErrNoRows` (modelled as `none`). -/
def scanRowid (db : DB) (pid : String) : Option Nat :=
  db.rows.indexOf? pid

/-- Embeds checkID (main.go lines 181-198). `fault` injects a
prepare / scan I/O failure, which is returned as `(false, err)`. Without a
fault, both a successful scan and `sql.ErrNoRows` fall through to the final
`return true, nil`: the membership result does not affect the return value. -/
def checkID (db : DB) (fault : Option String) (pid : String) : Bool × Option String :=
  match fault with
  | some e => (false, some e)
  | none =>
    match scanRowid db pid with
    | some _ => (true, none)
    | none => (true, none)

/-- Embeds addID (main.go lines 160-179). `fault` injects a
prepare / begin / exec I/O failure (ledger unchanged, error returned).
Without a fault, inserting an already-present `paste_ID` violates the
UNIQUE constraint: the transaction rolls back and the sqlite error text is
returned; otherwise the row is appended and committed. -/
def addID (db : DB) (fault : Option String) (pid : String) : DB × Option String :=
  match fault with
  | some e => (db, some e)
  | none =>
    if pid ∈ db.rows then (db, some uniqueErrMsg)
    else (⟨db.rows ++ [pid]⟩, none)

/-- Embeds send (main.go lines 214-227) and post (lines 200-212):
`json.Marshal` of a string cannot fail, one POST is made, and only a
transport-level failure of `client.Do` is reported; `sendErr` is the
transport outcome of that single attempt. -/
def send (sendErr : Option String) (_pid : String) : Option String :=
  sendErr

/-- Per-candidate fault oracle: the injected checkID fault, the injected
addID fault, and the transport outcome of the send attempt. -/
structure Faults where
  checkFault : Option String
  addFault : Option String
  sendErr : Option String
deriving DecidableEq, Repr

/-- A candidate whose ledger and delivery operations all succeed. -/
def noFaults : Faults := ⟨none, none, none⟩

/-- The log lines the candidate loop of main can emit
(main.go lines 276, 281, 288). -/
inductive LogEvent where
  | queryFail (pid : String)
  | saveFail (pid : String)
  | sendFail (pid : String)
deriving DecidableEq, Repr

/-- Result of one pass of the candidate loop: the ledger afterwards, the
identifiers handed to send (in order), the log lines (in order), and the
candidates left unprocessed when the loop broke early. -/
structure BatchResult where
  db : DB
  forwarded : List String
  logs : List LogEvent
  unprocessed : List ID
deriving DecidableEq, Repr

/-- Embeds the candidate loop of main (main.go lines 273-290), one
`(candidate, faults)` pair per iteration:
`ok, err := checkID(...)`; on `err != nil || !ok` log and `break` (the rest
of the batch is left unprocessed); `err = addID(...)`; on a non-UNIQUE error
log and `continue`; on the UNIQUE error text `continue` silently; otherwise
`id.send(hostString)`, logging its error if any. -/
def processBatch : DB → List (ID × Faults) → BatchResult
  | db, [] => ⟨db, [], [], []⟩
  | db, (c, f) :: rest =>
    match checkID db f.checkFault c.id with
    | (ok, err) =>
      if err.isSome ∨ ok = false then
        ⟨db, [], [.queryFail c.id], rest.map Prod.fst⟩
      else
        match addID db f.addFault c.id with
        | (db', some e) =>
          if e ≠ uniqueErrMsg then
            let r := processBatch db' rest
            ⟨r.db, r.forwarded, .saveFail c.id :: r.logs, r.unprocessed⟩
          else
            processBatch db' rest
        | (db', none) =>
          let r := processBatch db' rest
          match send f.sendErr c.id with
          | some _ => ⟨r.db, c.id :: r.forwarded, .sendFail c.id :: r.logs, r.unprocessed⟩
          | none => ⟨r.db, c.id :: r.forwarded, r.logs, r.unprocessed⟩

/-- Pairs the fetched candidates with their per-candidate fault oracle. -/
def attachFaults (fs : Nat → Faults) (ids : List ID) : List (ID × Faults) :=
  ids.enum.map (fun p => (p.2, fs p.1))

/-- Outcome of one scheduler tick (main.go lines 264-291): a fetch error is
logged and the cycle is skipped; a getDaily panic kills the process; else
the candidate loop runs on the fetched batch. -/
inductive CycleResult where
  | fetchFailed (msg : String)
  | panicked
  | completed (r : BatchResult)
deriving DecidableEq, Repr

/-- Embeds one full tick of the scheduler loop of main
(main.go lines 264-291). -/
def runCycle (db : DB) (atts : Nat → Attempt) (fs : Nat → Faults) : CycleResult :=
  match getDaily atts with
  | .fetchErr m => .fetchFailed m
  | .panicNilRes => .panicked
  | .panicIndex => .panicked
  | .ok data => .completed (processBatch db (attachFaults fs data))

/-- Sample candidate used in concrete evaluations. -/
def idA : ID := ⟨"a", "", 0⟩

/-- Second sample candidate used in concrete evaluations. -/
def idB : ID := ⟨"b", "", 0⟩

/-- The append loop of getDaily copies the inner slice verbatim
(generalized over the accumulator). -/
lemma copyInner_aux (l acc : List ID) :
    l.foldl (fun acc x => acc ++ [x]) acc = acc ++ l := by
  induction l generalizing acc with
  | nil => simp
  | cons x xs ih => rw [List.foldl_cons, ih]; simp

/-- The append loop of getDaily returns exactly the inner slice. -/
lemma copyInner_eq (l : List ID) : copyInner l = l := by
  simpa using copyInner_aux l []

/-- checkID with no injected fault returns `(true, nil)` for every id:
both a matching row and `sql.ErrNoRows` fall through to the same return. -/
lemma checkID_none (db : DB) (pid : String) : checkID db none pid = (true, none) := by
  unfold checkID
  cases scanRowid db pid <;> rfl

/-- Branch lemma: a checkID fault makes the candidate loop log and break,
leaving the ledger untouched and the rest of the batch unprocessed. -/
lemma processBatch_queryFail (db : DB) (c : ID) (e : String) (af se : Option String)
    (rest : List (ID × Faults)) :
    processBatch db ((c, ⟨some e, af, se⟩) :: rest) =
      ⟨db, [], [.queryFail c.id], rest.map Prod.fst⟩ := by
  simp [processBatch, checkID]

/-- Branch lemma: an addID error with a non-UNIQUE message is logged and the
loop continues with the rest of the batch. -/
lemma processBatch_saveFail (db : DB) (c : ID) (e : String) (se : Option String)
    (rest : List (ID × Faults)) (he : e ≠ uniqueErrMsg) :
    processBatch db ((c, ⟨none, some e, se⟩) :: rest) =
      ⟨(processBatch db rest).db, (processBatch db rest).forwarded,
        .saveFail c.id :: (processBatch db rest).logs,
        (processBatch db rest).unprocessed⟩ := by
  simp [processBatch, checkID_none, addID, he]

/-- Branch lemma: an addID error whose message is exactly the UNIQUE
constraint text is skipped silently: no forward, no log. -/
lemma processBatch_uniqueMsg (db : DB) (c : ID) (se : Option String)
    (rest : List (ID × Faults)) :
    processBatch db ((c, ⟨none, some uniqueErrMsg, se⟩) :: rest) =
      processBatch db rest := by
  simp [processBatch, checkID_none, addID]

/-- Branch lemma: a candidate already present in the ledger hits the UNIQUE
constraint in addID and is skipped silently. -/
lemma processBatch_dup (db : DB) (c : ID) (se : Option String)
    (rest : List (ID × Faults)) (h : c.id ∈ db.rows) :
    processBatch db ((c, ⟨none, none, se⟩) :: rest) = processBatch db rest := by
  simp [processBatch, checkID_none, addID, h]

/-- Branch lemma: a fresh candidate is inserted and forwarded; a transport
failure of the send is logged but changes nothing else. -/
lemma processBatch_new_sendFail (db : DB) (c : ID) (e : String)
    (rest : List (ID × Faults)) (h : c.id ∉ db.rows) :
    processBatch db ((c, ⟨none, none, some e⟩) :: rest) =
      ⟨(processBatch ⟨db.rows ++ [c.id]⟩ rest).db,
        c.id :: (processBatch ⟨db.rows ++ [c.id]⟩ rest).forwarded,
        .sendFail c.id :: (processBatch ⟨db.rows ++ [c.id]⟩ rest).logs,
        (processBatch ⟨db.rows ++ [c.id]⟩ rest).unprocessed⟩ := by
  simp [processBatch, checkID_none, addID, h, send]

/-- Branch lemma: a fresh candidate is inserted and forwarded; on a
successful send nothing is logged. -/
lemma processBatch_new_sent (db : DB) (c : ID)
    (rest : List (ID × Faults)) (h : c.id ∉ db.rows) :
    processBatch db ((c, ⟨none, none, none⟩) :: rest) =
      ⟨(processBatch ⟨db.rows ++ [c.id]⟩ rest).db,
        c.id :: (processBatch ⟨db.rows ++ [c.id]⟩ rest).forwarded,
        (processBatch ⟨db.rows ++ [c.id]⟩ rest).logs,
        (processBatch ⟨db.rows ++ [c.id]⟩ rest).unprocessed⟩ := by
  simp [processBatch, checkID_none, addID, h, send]

/-- The candidate loop never removes a ledger row: membership in the
`paste_ID` column is preserved across a batch. -/
lemma mem_rows_processBatch (x : String) (batch : List (ID × Faults)) :
    ∀ (db : DB), x ∈ db.rows → x ∈ (processBatch db batch).db.rows := by
  induction batch with
  | nil => intro db h; exact h
  | cons p rest ih =>
    intro db h
    obtain ⟨c, ⟨cf, af, se⟩⟩ := p
    cases cf with
    | some e => rw [processBatch_queryFail]; exact h
    | none =>
      cases af with
      | some e =>
        by_cases he : e = uniqueErrMsg
        · subst he; rw [processBatch_uniqueMsg]; exact ih db h
        · rw [processBatch_saveFail db c e se rest he]; exact ih db h
      | none =>
        by_cases hm : c.id ∈ db.rows
        · rw [processBatch_dup db c se rest hm]; exact ih db h
        · cases se with
          | some e =>
            rw [processBatch_new_sendFail db c e rest hm]
            exact ih ⟨db.rows ++ [c.id]⟩ (by simp [h])
          | none =>
            rw [processBatch_new_sent db c rest hm]
            exact ih ⟨db.rows ++ [c.id]⟩ (by simp [h])

/-- An identifier already present in the ledger is never handed to send by
any batch, whatever the per-candidate faults. -/
lemma not_forwarded_processBatch (x : String) (batch : List (ID × Faults)) :
    ∀ (db : DB), x ∈ db.rows → x ∉ (processBatch db batch).forwarded := by
  induction batch with
  | nil => intro db _; simp [processBatch]
  | cons p rest ih =>
    intro db h
    obtain ⟨c, ⟨cf, af, se⟩⟩ := p
    cases cf with
    | some e => rw [processBatch_queryFail]; simp
    | none =>
      cases af with
      | some e =>
        by_cases he : e = uniqueErrMsg
        · subst he; rw [processBatch_uniqueMsg]; exact ih db h
        · rw [processBatch_saveFail db c e se rest he]; exact ih db h
      | none =>
        by_cases hm : c.id ∈ db.rows
        · rw [processBatch_dup db c se rest hm]; exact ih db h
        · have hne : x ≠ c.id := fun hx => hm (hx ▸ h)
          cases se with
          | some e =>
            rw [processBatch_new_sendFail db c e rest hm]
            intro hx
            rcases List.mem_cons.mp hx with h1 | h2
            · exact hne h1
            · exact ih ⟨db.rows ++ [c.id]⟩ (by simp [h]) h2
          | none =>
            rw [processBatch_new_sent db c rest hm]
            intro hx
            rcases List.mem_cons.mp hx with h1 | h2
            · exact hne h1
            · exact ih ⟨db.rows ++ [c.id]⟩ (by simp [h]) h2

/-- C1, counterexample: in a batch of two candidates where the first one's
checkID lookup faults and the second is perfectly healthy, the loop breaks:
the second candidate stays unprocessed and nothing is forwarded, so a lookup
error does abort the rest of the batch. -/
theorem C1_counterexample :
    (processBatch ⟨[]⟩ [(idA, ⟨some "disk fault", none, none⟩), (idB, noFaults)]).unprocessed
        = [idB] ∧
    (processBatch ⟨[]⟩ [(idA, ⟨some "disk fault", none, none⟩), (idB, noFaults)]).forwarded
        = [] := by
  constructor <;> rfl

/-- C1, amended: when the checkID lookup for a candidate errors, the
scheduler logs that candidate and breaks out of the candidate loop: the
ledger is unchanged, nothing is forwarded, and every subsequent candidate of
the batch is left unprocessed for this cycle. -/
theorem C1_lookup_error_breaks_batch (db : DB) (c : ID) (f : Faults) (e : String)
    (rest : List (ID × Faults)) (hf : f.checkFault = some e) :
    processBatch db ((c, f) :: rest) =
      ⟨db, [], [.queryFail c.id], rest.map Prod.fst⟩ := by
  obtain ⟨cf, af, se⟩ := f
  cases hf
  exact processBatch_queryFail db c e af se rest

/-- C1, witness for the amended theorem at a concrete input. -/
theorem C1_lookup_error_breaks_batch_witness :
    processBatch ⟨[]⟩ [(idA, ⟨some "disk fault", none, none⟩), (idB, noFaults)] =
      ⟨⟨[]⟩, [], [.queryFail "a"], [idB]⟩ :=
  C1_lookup_error_breaks_batch ⟨[]⟩ idA ⟨some "disk fault", none, none⟩ "disk fault"
    [(idB, noFaults)] rfl

/-- C2, code evaluation: checkID with no storage fault returns `(true, nil)`
for every id and every ledger state, so in particular it returns true for an
id that was never recorded (empty ledger, id "x"): the claimed
"true iff previously recorded" is violated because `sql.ErrNoRows` is
swallowed and the membership result never reaches the return value. -/
theorem C2_checkID_always_true :
    (∀ (db : DB) (pid : String), checkID db none pid = (true, none)) ∧
    checkID ⟨[]⟩ none "x" = (true, none) ∧ "x" ∉ DB.rows ⟨[]⟩ :=
  ⟨fun db pid => checkID_none db pid, rfl, by simp⟩

/-- C3, code evaluation: with every attempt answering 502, the retry loop
makes exactly 3 calls (no fourth attempt), but getDaily then proceeds with
the 502 response body instead of returning an error — here it returns
success; and with every attempt failing at the transport level it
dereferences the nil response instead of returning the last error. -/
theorem C3_exhausted_retries_return_no_error :
    (retryLoop (fun _ => .response ⟨502, .wellFormed [[idA]]⟩)).calls = 3 ∧
    getDaily (fun _ => .response ⟨502, .wellFormed [[idA]]⟩) = .ok [idA] ∧
    getDaily (fun _ => .transportErr "connection refused") = .panicNilRes := by
  refine ⟨rfl, rfl, rfl⟩

/-- C4: a candidate already present in the ledger hits the UNIQUE constraint
in addID and the loop continues silently — the batch result is exactly that
of the remaining candidates, with no forward and no log for it; and an
identifier present in the ledger is never forwarded by any batch. -/
theorem C4_duplicate_silent_skip (db : DB) (c : ID)
    (rest batch2 : List (ID × Faults)) (h : c.id ∈ db.rows) :
    processBatch db ((c, noFaults) :: rest) = processBatch db rest ∧
    c.id ∉ (processBatch db batch2).forwarded :=
  ⟨processBatch_dup db c none rest h, not_forwarded_processBatch c.id batch2 db h⟩

/-- C4, witness at a concrete input: the ledger already holds "a". -/
theorem C4_duplicate_silent_skip_witness :
    ("a" ∈ DB.rows ⟨["a"]⟩) ∧
    (processBatch ⟨["a"]⟩ [(idA, noFaults), (idB, noFaults)] =
        processBatch ⟨["a"]⟩ [(idB, noFaults)] ∧
      "a" ∉ (processBatch ⟨["a"]⟩ [(idA, noFaults)]).forwarded) :=
  ⟨by simp, C4_duplicate_silent_skip ⟨["a"]⟩ idA [(idB, noFaults)] [(idA, noFaults)]
    (by simp [idA])⟩

/-- C5: for every response body deserializing to a single-element outer
sequence, getDaily returns exactly the inner sequence in order; in
particular a two-element inner sequence comes back as those two elements in
the same order. -/
theorem C5_unwraps_inner_sequence :
    (∀ (inner : List ID),
      getDaily (fun _ => .response ⟨200, .wellFormed [inner]⟩) = .ok inner) ∧
    getDaily (fun _ => .response ⟨200, .wellFormed [[idA, idB]]⟩) = .ok [idA, idB] := by
  constructor
  · intro inner
    show FetchResult.ok (copyInner inner) = .ok inner
    rw [copyInner_eq]
  · rfl

/-- C6: for the upstream body `[[]]` getDaily returns the empty sequence
with no error, and the cycle processing that result forwards nothing, logs
nothing and leaves the ledger unchanged. -/
theorem C6_empty_day (db : DB) (fs : Nat → Faults) :
    getDaily (fun _ => .response ⟨200, .wellFormed [[]]⟩) = .ok [] ∧
    runCycle db (fun _ => .response ⟨200, .wellFormed [[]]⟩) fs =
      .completed ⟨db, [], [], []⟩ := by
  exact ⟨rfl, rfl⟩

/-- C6, witness at a concrete input: empty ledger, fault-free candidates. -/
theorem C6_empty_day_witness :
    getDaily (fun _ => .response ⟨200, .wellFormed [[]]⟩) = .ok [] ∧
    runCycle ⟨[]⟩ (fun _ => .response ⟨200, .wellFormed [[]]⟩) (fun _ => noFaults) =
      .completed ⟨⟨[]⟩, [], [], []⟩ :=
  C6_empty_day ⟨[]⟩ (fun _ => noFaults)

/-- C7: a candidate whose addID fails with a hard (non-UNIQUE-message) error
is logged and skipped — not forwarded, ledger unchanged — and the rest of
the batch is processed exactly as it would have been on its own. -/
theorem C7_hard_insert_error_isolated (db : DB) (c : ID) (e : String)
    (se : Option String) (rest : List (ID × Faults)) (he : e ≠ uniqueErrMsg) :
    processBatch db ((c, ⟨none, some e, se⟩) :: rest) =
      ⟨(processBatch db rest).db, (processBatch db rest).forwarded,
        .saveFail c.id :: (processBatch db rest).logs,
        (processBatch db rest).unprocessed⟩ :=
  processBatch_saveFail db c e se rest he

/-- C7, witness at a concrete input: the insert for "a" faults hard, "b" is
still processed and forwarded. -/
theorem C7_hard_insert_error_isolated_witness :
    ("boom" ≠ uniqueErrMsg) ∧
    processBatch ⟨[]⟩ [(idA, ⟨none, some "boom", none⟩), (idB, noFaults)] =
      ⟨⟨["b"]⟩, ["b"], [.saveFail "a"], []⟩ := by
  refine ⟨by decide, ?_⟩
  rw [C7_hard_insert_error_isolated ⟨[]⟩ idA "boom" none [(idB, noFaults)] (by decide)]
  decide

/-- C8: a fresh identifier is recorded before the send; when the send fails
the failure is only logged, the ledger row stays, and no later batch run
from the resulting ledger ever forwards that identifier again. -/
theorem C8_delivery_failure_keeps_record (db : DB) (c : ID) (e : String)
    (batch2 : List (ID × Faults)) (h : c.id ∉ db.rows) :
    c.id ∈ (processBatch db [(c, ⟨none, none, some e⟩)]).db.rows ∧
    (processBatch db [(c, ⟨none, none, some e⟩)]).logs = [.sendFail c.id] ∧
    c.id ∉ (processBatch (processBatch db [(c, ⟨none, none, some e⟩)]).db batch2).forwarded := by
  have h1 : processBatch db [(c, ⟨none, none, some e⟩)] =
      ⟨⟨db.rows ++ [c.id]⟩, [c.id], [.sendFail c.id], []⟩ := by
    rw [processBatch_new_sendFail db c e [] h]
    rfl
  rw [h1]
  exact ⟨by simp, rfl, not_forwarded_processBatch c.id batch2 ⟨db.rows ++ [c.id]⟩ (by simp)⟩

/-- C8, witness at a concrete input: "a" is new, its send times out, and a
later cycle containing "a" forwards nothing. -/
theorem C8_delivery_failure_keeps_record_witness :
    ("a" ∉ DB.rows ⟨[]⟩) ∧
    ("a" ∈ (processBatch ⟨[]⟩ [(idA, ⟨none, none, some "timeout"⟩)]).db.rows ∧
      (processBatch ⟨[]⟩ [(idA, ⟨none, none, some "timeout"⟩)]).logs = [.sendFail "a"] ∧
      "a" ∉ (processBatch (processBatch ⟨[]⟩ [(idA, ⟨none, none, some "timeout"⟩)]).db
          [(idA, noFaults)]).forwarded) :=
  ⟨by simp, C8_delivery_failure_keeps_record ⟨[]⟩ idA "timeout" [(idA, noFaults)] (by simp)⟩

/-- C9: when the body deserializes to an empty outer sequence, getDaily hits
the out-of-range access `tempSlice[0]` instead of returning an empty result
or an error; with a non-empty outer sequence the unwrapping is defined and
returns the first inner sequence. -/
theorem C9_empty_outer_out_of_range :
    getDaily (fun _ => .response ⟨200, .wellFormed []⟩) = .panicIndex ∧
    (∀ (inner : List ID) (rest : List (List ID)),
      getDaily (fun _ => .response ⟨200, .wellFormed (inner :: rest)⟩) = .ok inner) := by
  constructor
  · rfl
  · intro inner rest
    show FetchResult.ok (copyInner inner) = .ok inner
    rw [copyInner_eq]

/-- C10: when all attempts fail at the transport level the retry loop makes
exactly 3 calls and leaves `res` nil, and getDaily then dereferences the
absent response (no error-return path is taken). -/
theorem C10_all_transport_failures_nil_deref (msgs : Nat → String) :
    getDaily (fun n => .transportErr (msgs n)) = .panicNilRes ∧
    (retryLoop (fun n => .transportErr (msgs n))).calls = 3 := by
  exact ⟨rfl, rfl⟩

/-- C10, witness at a concrete input: every attempt is a connection reset. -/
theorem C10_all_transport_failures_nil_deref_witness :
    getDaily (fun n => .transportErr ((fun _ => "connection reset") n)) = .panicNilRes ∧
    (retryLoop (fun n => .transportErr ((fun _ => "connection reset") n))).calls = 3 :=
  C10_all_transport_failures_nil_deref (fun _ => "connection reset")

end Psbmon
